import Mathlib

/-!
# Verification of the watt-simulator frontend core (`src/script.js`)

Shallow embedding of the client-side orchestration logic of the appliance
energy-comparison tool: the two-slot selection state machine, the OCR
result handling, and the save / compare / export click handlers.

Modelling conventions:
* JavaScript `null` in a comparison slot is `Option.none`; an appliance
  identifier is a `Nat` (the backend serves JSON numbers for `id`).
  JavaScript truthiness on such a slot value (`!selectedForCompare[s]`)
  is `jsTruthy`: `null` and the number `0` are falsy, all other numbers
  are truthy.
* DOM input values and `textContent` are `String`s; JavaScript `||` on
  strings is `jsOr` (the empty string is the only falsy string).
* Each click handler is embedded as a pure function from its inputs
  (current state, DOM field values, or the backend response) to a record
  of its observable effects: the alert message it raises, if any, and
  the network request it issues, if any.  DOM-only side effects
  (re-rendering, highlighting) and the unconditional list re-fetch are
  outside the claims treated here and are not part of these records.
-/

set_option autoImplicit false

namespace WattSim

/-- The selection state: `let selectedForCompare = [null, null]` —
a fixed pair of slots, each holding an appliance `id` or `null`. -/
abbrev SelState := Option Nat × Option Nat

/-- The initial selection state `[null, null]`: both slots empty. -/
def initState : SelState := (none, none)

/-- Read `selectedForCompare[s]` for a slot index `s ∈ {0, 1}`. -/
def slotGet (st : SelState) (s : Fin 2) : Option Nat :=
  if s = 0 then st.1 else st.2

/-- Write `selectedForCompare[s] = v`. -/
def slotSet (st : SelState) (s : Fin 2) (v : Option Nat) : SelState :=
  if s = 0 then (v, st.2) else (st.1, v)

/-- Embedding of `toggleSlot(slot, id)` from `script.js` lines 119–125, restricted to its
effect on `selectedForCompare` (the function additionally re-fetches the
appliance list and re-renders, which does not touch the selection pair):
`if (selectedForCompare[slot] === id) selectedForCompare[slot] = null;
else selectedForCompare[slot] = id;` -/
def toggleSlot (st : SelState) (s : Fin 2) (id : Nat) : SelState :=
  if slotGet st s = some id then slotSet st s none
  else slotSet st s (some id)

/-- Run a sequence of toggle events (slot index, identifier) in order. -/
def runToggles (st : SelState) : List (Fin 2 × Nat) → SelState
  | [] => st
  | (s, x) :: rest => runToggles (toggleSlot st s x) rest

/-- A selection state is reachable when some sequence of toggle events
produces it from the initial state (both slots empty). -/
def reachable (st : SelState) : Prop :=
  ∃ l : List (Fin 2 × Nat), runToggles initState l = st

/-- Reading slot `0` of the pair is its first component. -/
@[simp] theorem slotGet_zero (st : SelState) : slotGet st 0 = st.1 := rfl

/-- Reading slot `1` of the pair is its second component. -/
@[simp] theorem slotGet_one (st : SelState) : slotGet st 1 = st.2 := rfl

/-- Characterization of `toggleSlot` on slot `0`. -/
@[simp] theorem toggleSlot_zero (st : SelState) (x : Nat) :
    toggleSlot st 0 x
      = if st.1 = some x then (none, st.2) else (some x, st.2) := rfl

/-- Characterization of `toggleSlot` on slot `1`. -/
@[simp] theorem toggleSlot_one (st : SelState) (x : Nat) :
    toggleSlot st 1 x
      = if st.2 = some x then (st.1, none) else (st.1, some x) := rfl

end WattSim

namespace WattSim

/-- C1 (counterexample): the claim "for EVERY selection state, toggling `x`
in slot A then toggling `x` in slot B leaves both slots holding `x`" fails
at the concrete state `(some 1, none)` with `x = 1`: the first toggle
deselects `1` from slot A, so the final state is `(none, some 1)` and slot A
does not hold `1`. -/
theorem toggle_dup_claim_false_at_selected :
    toggleSlot (toggleSlot ((some 1, none) : SelState) 0 1) 1 1
      = ((none, some 1) : SelState)
    ∧ slotGet (toggleSlot (toggleSlot ((some 1, none) : SelState) 0 1) 1 1) 0
      ≠ some 1 := by
  constructor
  · decide
  · decide

/-- C1 (amended): for every selection state in which `x` occupies neither
slot, toggling `x` in slot A and then in slot B leaves both slots holding
`x`: the toggle operation does not enforce exclusivity of an identifier
across slots, so duplicate occupancy is reachable and accepted. -/
theorem toggle_dup_occupancy (st : SelState) (x : Nat)
    (hA : st.1 ≠ some x) (hB : st.2 ≠ some x) :
    toggleSlot (toggleSlot st 0 x) 1 x = (some x, some x) := by
  obtain ⟨a, b⟩ := st
  simp_all

/-- C1 (witness): the amended theorem applied at the initial state with
identifier `1`. -/
theorem toggle_dup_occupancy_witness :
    ((none, none) : SelState).1 ≠ some 1
    ∧ ((none, none) : SelState).2 ≠ some 1
    ∧ toggleSlot (toggleSlot ((none, none) : SelState) 0 1) 1 1
        = (some 1, some 1) :=
  ⟨by decide, by decide,
    toggle_dup_occupancy (none, none) 1 (by decide) (by decide)⟩

/-- C2 (counterexample): the claimed invariant "in every reachable state a
given id occupies at most one slot" is false: the state `(some 1, some 1)`
is reachable from the initial state by toggling id `1` in slot A then in
slot B, and id `1` occupies both slots there. -/
theorem dup_state_reachable_concrete :
    reachable ((some 1, some 1) : SelState)
    ∧ ((some 1, some 1) : SelState).1 = some 1
    ∧ ((some 1, some 1) : SelState).2 = some 1 :=
  ⟨⟨[(0, 1), (1, 1)], by decide⟩, rfl, rfl⟩

/-- C2 (amended): the machine does not enforce the at-most-one-slot
invariant: for every identifier `x`, a state in which `x` occupies both
slots simultaneously is reachable from the initial state (by toggling `x`
in slot A and then in slot B); only one value per individual slot is
enforced, by the shape of the state. -/
theorem dup_state_reachable (x : Nat) :
    reachable ((some x, some x) : SelState) := by
  refine ⟨[(0, x), (1, x)], ?_⟩
  simp [runToggles, initState]

/-- C3 (counterexample): the claim "for EVERY selection state, toggling
`(s, x)` twice leaves slot `s` empty" fails at the concrete state
`(some 1, none)`, slot `0`, `x = 1`: the first toggle deselects (slot
becomes empty) and the second re-selects, so slot `0` ends holding `1`. -/
theorem double_toggle_claim_false_at_selected :
    slotGet (toggleSlot (toggleSlot ((some 1, none) : SelState) 0 1) 0 1) 0
      = some 1
    ∧ (some 1 : Option Nat) ≠ none := by
  constructor
  · decide
  · decide

/-- C3 (amended): for every selection state in which slot `s` does not
already hold `x`, toggling `(s, x)` twice in succession leaves slot `s`
empty (select then deselect). -/
theorem double_toggle_empties (st : SelState) (s : Fin 2) (x : Nat)
    (h : slotGet st s ≠ some x) :
    slotGet (toggleSlot (toggleSlot st s x) s x) s = none := by
  obtain ⟨a, b⟩ := st
  fin_cases s <;> simp_all

/-- C3 (witness): the amended theorem applied at the state
`(none, some 2)`, slot `0`, identifier `7`. -/
theorem double_toggle_empties_witness :
    slotGet ((none, some 2) : SelState) 0 ≠ some 7
    ∧ slotGet (toggleSlot (toggleSlot ((none, some 2) : SelState) 0 7) 0 7) 0
        = none :=
  ⟨by decide, double_toggle_empties (none, some 2) 0 7 (by decide)⟩

/-- C9: the toggle operation on slot `s` is frame-preserving on the other
slot: for every state, slot indices `t ≠ s`, and identifier `x`, slot `t`
holds the same value after `toggleSlot st s x` as before. -/
theorem toggle_frame (st : SelState) (s t : Fin 2) (x : Nat)
    (h : t ≠ s) :
    slotGet (toggleSlot st s x) t = slotGet st t := by
  obtain ⟨a, b⟩ := st
  fin_cases s <;> fin_cases t
  · exact absurd rfl h
  · show slotGet (toggleSlot (a, b) 0 x) 1 = slotGet ((a, b) : SelState) 1
    simp only [toggleSlot_zero, slotGet_one]
    split <;> rfl
  · show slotGet (toggleSlot (a, b) 1 x) 0 = slotGet ((a, b) : SelState) 0
    simp only [toggleSlot_one, slotGet_zero]
    split <;> rfl
  · exact absurd rfl h

/-- C9 (witness): toggling identifier `5` in slot `0` of `(some 1, some 2)`
leaves slot `1` unchanged. -/
theorem toggle_frame_witness :
    (1 : Fin 2) ≠ 0
    ∧ slotGet (toggleSlot ((some 1, some 2) : SelState) 0 5) 1
        = slotGet ((some 1, some 2) : SelState) 1 :=
  ⟨by decide, toggle_frame (some 1, some 2) 0 1 5 (by decide)⟩

end WattSim

namespace WattSim

/-- JavaScript truthiness of a slot value: `!selectedForCompare[s]` is
`true` exactly when the slot holds `null` or the falsy number `0`. -/
def jsTruthy : Option Nat → Bool
  | none => false
  | some n => n != 0

/-- The JSON body `{ ids: selectedForCompare }` sent by the compare
handler: the `ids` field is the two-element slot array in slot order. -/
structure CompareBody where
  ids : List (Option Nat)
deriving Repr, DecidableEq

/-- Observable effects of one `compareBtn.onclick` invocation, up to the
point the request is issued: the alert raised (if any) and the compare
request issued (if any; `Option` because the handler issues at most one). -/
structure CompareOutcome where
  alertMsg : Option String
  request : Option CompareBody
deriving Repr, DecidableEq

/-- The alert text of the compare handler's local rejection. -/
def compareRejectMsg : String := "Choose two appliances using Slot A and Slot B"

/-- Embedding of `compareBtn.onclick` from `script.js` lines 139–147:
`if (!selectedForCompare[0] || !selectedForCompare[1]) return alert(...);`
then one `POST /api/compare` whose body is
`JSON.stringify({ ids: selectedForCompare })`.  Rendering of the response
(`displayCompare`) has no further observable network effect. -/
def compareClick (st : SelState) : CompareOutcome :=
  if !jsTruthy st.1 || !jsTruthy st.2 then
    { alertMsg := some compareRejectMsg, request := none }
  else
    { alertMsg := none, request := some { ids := [st.1, st.2] } }

/-- C4 (counterexample): the claim "when both slots hold a non-empty
identifier, Compare issues exactly one exchange" fails at the concrete
state `(some 0, some 1)`: both slots hold identifiers, yet the guard
`!selectedForCompare[0]` treats the falsy identifier `0` like an empty
slot, so the handler rejects locally and issues no request. -/
theorem compare_claim_false_at_zero_id :
    ((some 0, some 1) : SelState).1 ≠ none
    ∧ ((some 0, some 1) : SelState).2 ≠ none
    ∧ compareClick ((some 0, some 1) : SelState)
        = { alertMsg := some compareRejectMsg, request := none } := by
  refine ⟨by decide, by decide, ?_⟩
  simp [compareClick, jsTruthy]

/-- C4 (amended): whenever at least one slot is empty, Compare is rejected
locally with a user-facing message and issues no exchange; whenever both
slots hold a nonzero identifier, it issues exactly one exchange.  (The
JavaScript guard additionally rejects the falsy identifier `0` as if the
slot were empty.) -/
theorem compare_guard :
    (∀ st : SelState, st.1 = none ∨ st.2 = none →
      compareClick st = { alertMsg := some compareRejectMsg, request := none })
    ∧ (∀ a b : Nat, a ≠ 0 → b ≠ 0 →
      compareClick (some a, some b)
        = { alertMsg := none, request := some { ids := [some a, some b] } }) := by
  constructor
  · rintro ⟨s1, s2⟩ (rfl | rfl) <;> simp [compareClick, jsTruthy]
  · intro a b ha hb
    simp [compareClick, jsTruthy, ha, hb]

/-- C4 (witness): the amended theorem applied at the concrete states
`(none, some 1)` (rejected, no request) and `(some 1, some 2)` (one
request). -/
theorem compare_guard_witness :
    compareClick ((none, some 1) : SelState)
      = { alertMsg := some compareRejectMsg, request := none }
    ∧ compareClick ((some 1, some 2) : SelState)
      = { alertMsg := none, request := some { ids := [some 1, some 2] } } :=
  ⟨compare_guard.1 (none, some 1) (Or.inl rfl),
    compare_guard.2 1 2 (by decide) (by decide)⟩

/-- C6 (counterexample): the claim "when slot A holds `idA` and slot B
holds `idB`, Compare submits exactly one request with body
`{ids:[idA, idB]}`" fails at the concrete state `(some 1, some 0)`: slot B
holds identifier `0`, which the guard treats as falsy, so no request is
submitted at all. -/
theorem compare_payload_claim_false_at_zero_id :
    (compareClick ((some 1, some 0) : SelState)).request = none
    ∧ (none : Option CompareBody) ≠ some { ids := [some 1, some 0] } := by
  constructor
  · simp [compareClick, jsTruthy]
  · decide

/-- C6 (amended): when slot A holds a nonzero identifier `idA` and slot B
holds a nonzero identifier `idB`, Compare submits exactly one request whose
body is `{ids:[idA, idB]}`, the two identifiers in slot order (slot A
first, slot B second). -/
theorem compare_payload_order (idA idB : Nat)
    (hA : idA ≠ 0) (hB : idB ≠ 0) :
    compareClick (some idA, some idB)
      = { alertMsg := none, request := some { ids := [some idA, some idB] } } := by
  simp [compareClick, jsTruthy, hA, hB]

/-- C6 (witness): the amended theorem at the spec scenario's identifiers
`1` and `2`: the payload is `{ids:[1, 2]}`. -/
theorem compare_payload_order_witness :
    (1 : Nat) ≠ 0 ∧ (2 : Nat) ≠ 0
    ∧ compareClick ((some 1, some 2) : SelState)
      = { alertMsg := none, request := some { ids := [some 1, some 2] } } :=
  ⟨by decide, by decide, compare_payload_order 1 2 (by decide) (by decide)⟩

end WattSim

namespace WattSim

/-- The response to `GET /api/export_pdf` as the handler observes it:
the success flag `res.ok` and the body bytes delivered by `res.blob()`. -/
structure ExportResp where
  ok : Bool
  body : String
deriving Repr, DecidableEq

/-- Observable effects of one `exportPdfBtn.onclick` invocation: the alert
raised (if any) and the file download triggered (if any), as a
(filename, content) pair. -/
structure ExportOutcome where
  alertMsg : Option String
  download : Option (String × String)
deriving Repr, DecidableEq

/-- Embedding of `exportPdfBtn.onclick` from `script.js` lines 153–160:
`if (!res.ok) return alert("PDF export failed");` otherwise the body blob
is downloaded through a synthetic anchor with
`a.download = "WattCompare_Report.pdf"`. -/
def exportClick (r : ExportResp) : ExportOutcome :=
  if !r.ok then
    { alertMsg := some "PDF export failed", download := none }
  else
    { alertMsg := none, download := some ("WattCompare_Report.pdf", r.body) }

/-- C7: on a non-success export response no file download is performed and
a user-facing failure message is raised; on a success response the body is
delivered as a downloadable file with the fixed filename
`WattCompare_Report.pdf`. -/
theorem export_outcome (r : ExportResp) :
    (r.ok = false →
      (exportClick r).download = none
      ∧ (exportClick r).alertMsg = some "PDF export failed")
    ∧ (r.ok = true →
      (exportClick r).download = some ("WattCompare_Report.pdf", r.body)
      ∧ (exportClick r).alertMsg = none) := by
  obtain ⟨ok, body⟩ := r
  cases ok <;> simp [exportClick]

/-- C7 (witness): the theorem applied to a concrete failing response and a
concrete successful response. -/
theorem export_outcome_witness :
    ((ExportResp.mk false "err").ok = false →
      (exportClick (ExportResp.mk false "err")).download = none
      ∧ (exportClick (ExportResp.mk false "err")).alertMsg
          = some "PDF export failed")
    ∧ ((ExportResp.mk true "pdfbytes").ok = true →
      (exportClick (ExportResp.mk true "pdfbytes")).download
          = some ("WattCompare_Report.pdf", "pdfbytes")
      ∧ (exportClick (ExportResp.mk true "pdfbytes")).alertMsg = none) :=
  ⟨(export_outcome (ExportResp.mk false "err")).1,
    (export_outcome (ExportResp.mk true "pdfbytes")).2⟩

end WattSim

namespace WattSim

/-- A parsed JSON value as the OCR handler can receive it: `jsNull` stands
for a falsy parse result (the body `null`), `obj` for an object carrying
the two optional fields `estimated_kwh_per_year` and `raw_text` (absent
fields are `none`). -/
inductive OcrJson where
  | jsNull : OcrJson
  | obj : Option Int → Option String → OcrJson
deriving Repr, DecidableEq

/-- The raw HTTP body of one `POST /api/ocr` exchange: either not valid
JSON (so `res.json()` rejects) or a parsed `OcrJson` value.  The handler
never consults the HTTP status. -/
inductive OcrHttpBody where
  | notJson : OcrHttpBody
  | parsed : OcrJson → OcrHttpBody
deriving Repr, DecidableEq

/-- The two DOM text nodes the OCR handler writes:
`detectedEl.textContent` and `rawEl.textContent`. -/
structure OcrDisplay where
  detected : String
  raw : String
deriving Repr, DecidableEq

/-- Model of `JSON.stringify(res)` on the parsed OCR object, used as the
fallback text when `raw_text` is falsy. -/
def jsonStringifyOcr : OcrJson → String
  | .jsNull => "null"
  | .obj none none => "\x7b\x7d"
  | .obj (some e) none =>
      "\x7b\x22estimated_kwh_per_year\x22:" ++ toString e ++ "\x7d"
  | .obj none (some r) => "\x7b\x22raw_text\x22:\x22" ++ r ++ "\x22\x7d"
  | .obj (some e) (some r) =>
      "\x7b\x22estimated_kwh_per_year\x22:" ++ toString e
        ++ ",\x22raw_text\x22:\x22" ++ r ++ "\x22\x7d"

/-- Embedding of `handleOcrResult(res)` from `script.js` lines 61–65: `if (!res) return;`
then `detectedEl.textContent = res.estimated_kwh_per_year ?? "—";
rawEl.textContent = res.raw_text || JSON.stringify(res);`  (`??` falls back
exactly on a nullish field; `||` falls back on any falsy string, so also on
`""`.) -/
def handleOcrResult (res : OcrJson) (d : OcrDisplay) : OcrDisplay :=
  match res with
  | .jsNull => d
  | .obj e r =>
      { detected := match e with | some n => toString n | none => "—"
        raw := match r with
          | some s => if s = "" then jsonStringifyOcr (.obj e r) else s
          | none => jsonStringifyOcr (.obj e r) }

/-- Embedding of `sendBlobForOcr` from `script.js` lines 33–39 followed by
`handleOcrResult`: `res.json()` rejects on a body that is not valid JSON,
propagating an error out of the handler with no display update; otherwise
the parsed value is handed to `handleOcrResult`. -/
def ocrFlow (b : OcrHttpBody) (d : OcrDisplay) : Except Unit OcrDisplay :=
  match b with
  | .notJson => .error ()
  | .parsed j => .ok (handleOcrResult j d)

/-- C8 (counterexample): the claim "a failed or malformed response yields
an unknown result displayed with a placeholder rather than an error" fails
at the concrete malformed body that is not valid JSON: `res.json()`
rejects, the flow ends in an error, and the display is never updated. -/
theorem ocr_claim_false_at_unparsable :
    ocrFlow OcrHttpBody.notJson (OcrDisplay.mk "old" "old") = Except.error ()
    ∧ ∀ d : OcrDisplay,
        ocrFlow OcrHttpBody.notJson (OcrDisplay.mk "old" "old") ≠ Except.ok d :=
  ⟨rfl, fun _ h => Except.noConfusion h⟩

/-- C8 (amended): a response whose body parses as a JSON object lacking the
expected fields yields an unknown result, not an error: for every such
body the flow succeeds and, when `estimated_kwh_per_year` is absent, the
detected display holds the placeholder marker `—`.  (A body that is not
parseable JSON instead makes `res.json()` reject, propagating an error
with no display update, and a body parsing to JSON `null` is ignored,
leaving the display unchanged.) -/
theorem ocr_missing_fields_placeholder :
    ∀ (r : Option String) (d : OcrDisplay),
      ∃ d' : OcrDisplay,
        ocrFlow (OcrHttpBody.parsed (OcrJson.obj none r)) d = Except.ok d'
        ∧ d'.detected = "—" :=
  fun r d => ⟨handleOcrResult (OcrJson.obj none r) d, rfl, rfl⟩

end WattSim

namespace WattSim

/-- JavaScript `||` specialized to strings: the empty string is the only
falsy string, so `a || b` is `b` when `a` is empty and `a` otherwise. -/
def jsOr (a b : String) : String := if a = "" then b else a

/-- The multipart form fields of the `POST /api/add_appliance` write
request, in the order they are appended. -/
structure AddReq where
  name : String
  price : String
  energy_rate : String
  aec : String
deriving Repr, DecidableEq

/-- The DOM input values read by the save handler (`#name`, `#price`,
`#rate`, `#manualAec`). -/
structure SaveInputs where
  name : String
  price : String
  rate : String
  manualAec : String
deriving Repr, DecidableEq

/-- Observable effects of one `saveBtn.onclick` invocation up to the write
request: the local validation alert raised (if any) and the add-appliance
request issued (if any; at most one write is issued per click). -/
structure SaveOutcome where
  alertMsg : Option String
  request : Option AddReq
deriving Repr, DecidableEq

/-- The validation alert text of the save handler's local rejection. -/
def aecRejectMsg : String := "Please provide AEC (detected or manual)"

/-- The resolved annual-energy-consumption value of `saveBtn.onclick`:
`const manual = document.getElementById("manualAec").value || "";
const aec = manual || detectedEl.textContent || "";` -/
def resolveAec (manualVal detectedText : String) : String :=
  jsOr (jsOr (jsOr manualVal "") detectedText) ""

/-- Embedding of `saveBtn.onclick` from `script.js` lines 68–86:
field defaulting by `||` (`name || "Unnamed"`, `price || 0`, `rate || 0` —
the numeric defaults are stringified by `FormData.append`), resolution of
`aec`, the local guard `if (!aec) return alert(...)`, and otherwise one
write request carrying the four form fields.  The post-response alert and
list re-fetch of the success path are beyond the write request and not
modelled. -/
def saveClick (i : SaveInputs) (detectedText : String) : SaveOutcome :=
  let name := jsOr i.name "Unnamed"
  let price := jsOr i.price "0"
  let rate := jsOr i.rate "0"
  let manual := jsOr i.manualAec ""
  let aec := jsOr (jsOr manual detectedText) ""
  if aec = "" then
    { alertMsg := some aecRejectMsg, request := none }
  else
    { alertMsg := none
      request := some { name := name, price := price, energy_rate := rate, aec := aec } }

/-- Appending the empty string on the right of `||` changes nothing. -/
theorem jsOr_empty_right (a : String) : jsOr a "" = a := by
  unfold jsOr
  split <;> simp_all

/-- C5: the save handler resolves the annual-energy-consumption value to
the manual entry when it is non-empty and to the detected value otherwise;
when the resolved value is empty the click is rejected locally with the
validation message and issues no request, and otherwise the resolved value
is submitted as the `aec` field of the single write request. -/
theorem save_aec_resolution (i : SaveInputs) (d : String) :
    (resolveAec i.manualAec d = if i.manualAec = "" then d else i.manualAec)
    ∧ (resolveAec i.manualAec d = "" →
        saveClick i d = { alertMsg := some aecRejectMsg, request := none })
    ∧ (resolveAec i.manualAec d ≠ "" →
        saveClick i d
          = { alertMsg := none
              request := some
                { name := jsOr i.name "Unnamed", price := jsOr i.price "0"
                  energy_rate := jsOr i.rate "0"
                  aec := resolveAec i.manualAec d } }) := by
  refine ⟨?_, ?_, ?_⟩
  · unfold resolveAec
    rw [jsOr_empty_right, jsOr_empty_right]
    unfold jsOr
    split <;> rfl
  · intro h
    unfold resolveAec at h
    simp only [saveClick]
    simp [h]
  · intro h
    unfold resolveAec at h ⊢
    simp only [saveClick]
    rw [if_neg h]

/-- C5 (witness): the theorem applied at concrete inputs: with an empty
manual entry and empty detected text the click is rejected with the
validation message; with detected text `350` it issues the write request
with `aec = 350` (the spec scenario). -/
theorem save_aec_resolution_witness :
    resolveAec "" "" = ""
    ∧ saveClick (SaveInputs.mk "Fridge" "12000" "7" "") ""
        = { alertMsg := some aecRejectMsg, request := none }
    ∧ resolveAec "" "350" ≠ ""
    ∧ saveClick (SaveInputs.mk "Fridge" "12000" "7" "") "350"
        = { alertMsg := none
            request := some
              { name := jsOr "Fridge" "Unnamed", price := jsOr "12000" "0"
                energy_rate := jsOr "7" "0", aec := resolveAec "" "350" } } :=
  ⟨by decide,
    (save_aec_resolution (SaveInputs.mk "Fridge" "12000" "7" "") "").2.1 (by decide),
    by decide,
    (save_aec_resolution (SaveInputs.mk "Fridge" "12000" "7" "") "350").2.2 (by decide)⟩

/-- C10: after an extraction response whose JSON object lacks
`estimated_kwh_per_year`, the detected display holds the placeholder
string `—`; a subsequent save click with an empty manual entry resolves
the annual-energy-consumption value to `—`, passes the emptiness guard,
and submits the placeholder string as the `aec` field of the write request
instead of being rejected. -/
theorem placeholder_passes_save_guard (r : Option String) (d : OcrDisplay)
    (n p rt : String) :
    ∃ (d' : OcrDisplay) (req : AddReq),
      ocrFlow (OcrHttpBody.parsed (OcrJson.obj none r)) d = Except.ok d'
      ∧ d'.detected = "—"
      ∧ saveClick (SaveInputs.mk n p rt "") d'.detected
          = { alertMsg := none, request := some req }
      ∧ req.aec = "—" :=
  ⟨handleOcrResult (OcrJson.obj none r) d,
    { name := jsOr n "Unnamed", price := jsOr p "0"
      energy_rate := jsOr rt "0", aec := "—" },
    rfl, rfl, rfl, rfl⟩

end WattSim
